import Mathlib

/-!
Verification development for the turn-based agent simulation engine of the
`agentic-world` repository.  The Python sources are shallowly embedded:
`Decimal` money is modelled as `ℚ`, the integer need counters as `ℤ`,
exceptions as `Except String`, and ambient randomness / wall-clock reads as
explicit extra arguments.  Each definition is a direct transcription of the
Python function named in its doc comment.
-/

namespace AgenticWorld

/-- The three need counters of an agent (`agent['needs']` in
`execute-simulation-turn.py`); Python stores plain ints. -/
structure Needs where
  hunger : ℤ
  exhaustion : ℤ
  stress : ℤ
deriving Repr, DecidableEq

/-- The mutable per-agent state touched by the action resolver of
`execute-simulation-turn.py` (`agent` dict entries `money`, `needs`,
`location`, `memories`).  `Decimal` money is modelled exactly as `ℚ`. -/
structure Agent where
  money : ℚ
  needs : Needs
  location : String
  inventory : List String
  memories : List String
deriving Repr, DecidableEq

/-- A decision record as produced by the decision providers
(`action`, `reasoning`, `emotion`, `urgency` keys of the returned dict). -/
structure Decision where
  action : String
  reasoning : String
  emotion : String
  urgency : String
deriving Repr, DecidableEq

/-- Test that the character list `p` is an initial segment of `s`. -/
def hasPref : List Char → List Char → Bool
  | _, [] => true
  | [], _ :: _ => false
  | c :: cs, p :: ps => c == p && hasPref cs ps

/-- Test that the character list `p` occurs contiguously inside `s`. -/
def hasSub : List Char → List Char → Bool
  | [], pat => hasPref [] pat
  | s@(_ :: cs), pat => hasPref s pat || hasSub cs pat

/-- Python's substring test `pat in s` on strings. -/
def strContains (s pat : String) : Bool :=
  hasSub s.toList pat.toList

/-- Economic tier computation of `execute_action`
(`execute-simulation-turn.py` lines 543-550): thresholds on `money`. -/
def tierOf (money : ℚ) : String :=
  if money ≥ 1000000 then "ultra_wealthy"
  else if money ≥ 10000 then "wealthy"
  else if money ≥ 1000 then "middle"
  else "poor"

/-- Action-category tests of `execute_action`: each is the disjunction of
Python `in` substring tests on `decision['action']`. -/
def foodAction (a : String) : Bool :=
  strContains a "food" || strContains a "lunch" || strContains a "eat"

def workAction (a : String) : Bool :=
  strContains a "work" || strContains a "shift" || strContains a "gig" || strContains a "submit"

def restAction (a : String) : Bool :=
  strContains a "rest" || strContains a "sleep" || strContains a "breathe"

def investAction (a : String) : Bool :=
  strContains a "investment" || strContains a "portfolio" || strContains a "finance"

def socialAction (a : String) : Bool :=
  strContains a "social" || strContains a "network"

def routineAction (a : String) : Bool :=
  strContains a "routine" || strContains a "morning"

def vacationAction (a : String) : Bool :=
  strContains a "vacation" || strContains a "plan"

def ignoreAction (a : String) : Bool :=
  strContains a "ignore"

def postAction (a : String) : Bool :=
  strContains a "post" || strContains a "social_media"

/-- The main `if/elif` chain of `execute_action`
(`execute-simulation-turn.py` lines 552-647), applied before the urgency
stress adjustment and the wealthy-tier drift.  `Decimal(str(money * 0.002))`
in the investment branch is modelled as exact rational multiplication (only
the sign and rough magnitude of the gain matter to any stated property). -/
def executeActionCore (agent : Agent) (action : String) (tier : String) : Agent × String :=
  if foodAction action then
    if tier = "poor" then
      if agent.money ≥ 5 then
        ({agent with money := agent.money - 5,
                     needs := {agent.needs with hunger := max 0 (agent.needs.hunger - 30)}},
         "Bought dollar menu food, still hungry")
      else
        ({agent with location := "food_bank",
                     needs := {agent.needs with hunger := max 0 (agent.needs.hunger - 20)}},
         "No money for food, went to food bank")
    else if tier = "middle" then
      ({agent with money := agent.money - 15,
                   needs := {agent.needs with hunger := 0}},
       "Had a decent lunch at cafe")
    else
      ({agent with money := agent.money - 45,
                   needs := {agent.needs with hunger := 0}},
       "Enjoyed artisanal lunch")
  else if workAction action then
    if tier = "poor" then
      ({agent with money := agent.money + 647/100,
                   needs := {agent.needs with exhaustion := min 100 (agent.needs.exhaustion + 10)}},
       "Worked desperately, earned $6.47")
    else if tier = "middle" then
      ({agent with money := agent.money + 240}, "Completed work day, earned $240")
    else
      ({agent with money := agent.money + 2000}, "Portfolio gained $2000 today")
  else if restAction action then
    if tier = "poor" then
      ({agent with needs := {agent.needs with exhaustion := max 0 (agent.needs.exhaustion - 15),
                                              stress := max 0 (agent.needs.stress - 10)}},
       "Rested on bench, still tired")
    else
      ({agent with needs := {agent.needs with exhaustion := 0,
                                              stress := max 0 (agent.needs.stress - 20)}},
       "Relaxed comfortably")
  else if investAction action then
    if tier = "wealthy" ∨ tier = "ultra_wealthy" then
      ({agent with money := agent.money + agent.money * (2/1000)}, "Investment returns")
    else if tier = "middle" then
      ({agent with money := agent.money + 5}, "401k contribution saved $5")
    else
      (agent, "No money to invest")
  else if socialAction action then
    if tier = "wealthy" ∨ tier = "ultra_wealthy" then
      ({agent with money := agent.money - 50}, "Networked at exclusive venue, new opportunities")
    else
      (agent, "No access to networking events")
  else if routineAction action then
    if tier = "wealthy" ∨ tier = "ultra_wealthy" then
      ({agent with needs := {agent.needs with exhaustion := 0, stress := 0}},
       "Completed morning wellness routine")
    else
      (agent, "No time for routines, need to survive")
  else if vacationAction action then
    if tier = "ultra_wealthy" then
      ({agent with money := agent.money - 10000}, "Booked $10,000 vacation package")
    else
      (agent, "Can only dream of vacations")
  else if ignoreAction action then
    (agent, "Successfully ignored suffering around me")
  else if postAction action then
    if tier = "ultra_wealthy" then
      (agent, "Posted about gratitude, gained 10K likes")
    else
      (agent, "No time for social media, too busy surviving")
  else
    if tier = "poor" then (agent, "Struggled to survive another moment")
    else if tier = "middle" then (agent, "Maintained middle class stability")
    else (agent, "Continued accumulating wealth")

/-- Urgency-based stress adjustment of `execute_action`
(`execute-simulation-turn.py` lines 649-653). -/
def applyUrgencyStress (agent : Agent) (urgency : String) : Agent :=
  if urgency = "immediate" then
    {agent with needs := {agent.needs with stress := min 100 (agent.needs.stress + 10)}}
  else if urgency = "low" then
    {agent with needs := {agent.needs with stress := max 0 (agent.needs.stress - 5)}}
  else agent

/-- Passive need drift for the wealthy tiers
(`execute-simulation-turn.py` lines 655-659). -/
def applyTierDrift (agent : Agent) (tier : String) : Agent :=
  if tier = "wealthy" ∨ tier = "ultra_wealthy" then
    {agent with needs := { hunger := max 0 (agent.needs.hunger - 5),
                           exhaustion := max 0 (agent.needs.exhaustion - 5),
                           stress := max 0 (agent.needs.stress - 5) }}
  else agent

/-- Embedding of `execute_action` (`execute-simulation-turn.py` lines 536-661): the tier
is derived once from the incoming money, then the action branch, the urgency
stress adjustment and the tier drift run in source order.  Returns the
mutated agent and the result string. -/
def executeAction (agent : Agent) (decision : Decision) : Agent × String :=
  let tier := tierOf agent.money
  let core := executeActionCore agent decision.action tier
  (applyTierDrift (applyUrgencyStress core.1 decision.urgency) tier, core.2)

/-- Embedding of `update_needs` (`execute-simulation-turn.py` lines 663-674). -/
def updateNeeds (agent : Agent) : Agent :=
  if agent.money < 100 then
    {agent with needs := { hunger := min 100 (agent.needs.hunger + 5),
                           exhaustion := min 100 (agent.needs.exhaustion + 3),
                           stress := min 100 (agent.needs.stress + 2) }}
  else
    {agent with needs := { hunger := max 0 (agent.needs.hunger - 5),
                           exhaustion := max 0 (agent.needs.exhaustion - 10),
                           stress := max 0 (agent.needs.stress - 5) }}

/-- All three need counters lie in `[0, 100]`. -/
def needsInRange (n : Needs) : Prop :=
  0 ≤ n.hunger ∧ n.hunger ≤ 100 ∧
  0 ≤ n.exhaustion ∧ n.exhaustion ≤ 100 ∧
  0 ≤ n.stress ∧ n.stress ≤ 100

instance (n : Needs) : Decidable (needsInRange n) := by
  unfold needsInRange; infer_instance

example : tierOf 47 = "poor" := by decide
example : tierOf 47000 = "wealthy" := by decide
example : foodAction "search_for_food" = true := by decide
example : foodAction "work_shift" = false := by decide

/- ------------------------------------------------------------------ -/
/- Relationship / encounter engine (`character-interactions.py`)       -/
/- ------------------------------------------------------------------ -/

/-- Embedding of `determine_interaction_type`
(`character-interactions.py` lines 73-105).  The call
`random.choice(interactions)` in the both-struggling branch is modelled by
the injected index `pick`, taken modulo the candidate-list length. -/
def determine_interaction_type (money1 money2 : ℚ) (location : String) (pick : ℕ) : String :=
  if 10000 < |money1 - money2| then
    if money1 < 100 ∨ money2 < 100 then "class_tension" else "class_disconnect"
  else if money1 < 100 ∧ money2 < 100 then
    let interactions := ["solidarity", "resource_sharing", "commiseration", "collaboration"]
    interactions.getD (pick % interactions.length) "solidarity"
  else if strContains location "tech" || strContains location "office" then "professional"
  else if strContains location "coffee" then "casual_encounter"
  else if strContains location "library" then
    if money1 < 100 ∨ money2 < 100 then "quiet_desperation" else "intellectual"
  else "neutral"

/-- Embedding of the encounter classification inside
`simulate_character_interaction`
(`execute-simulation-turn-with-mcp.py` lines 819-826). -/
def mcpInteractionType (money1 money2 : ℚ) : String :=
  if money1 < 100 ∧ money2 < 100 then "solidarity"
  else if 10000 < |money1 - money2| then "class_tension"
  else if money1 < 100 ∨ money2 < 100 then "compassion_or_dismissal"
  else "neutral"

/-- Embedding of the relationship-type `if/elif` chain of
`update_relationship` (`character-interactions.py` lines 344-355), applied
to the post-delta trust/affinity scores and the history length after the
append. -/
def relationshipType (trust affinity : ℤ) (historyLen : ℕ) : String :=
  if trust > 50 ∧ affinity > 50 then "friend"
  else if trust > 30 ∧ affinity > 30 then "ally"
  else if trust < -30 ∨ affinity < -30 then "adversary"
  else if trust < -50 ∧ affinity < -50 then "enemy"
  else if historyLen > 1 then "acquaintance"
  else "stranger"

/-- A stored relationship record (`self.relationships[key]`), with the
history abstracted to its length (only `len(history)` feeds the type). -/
structure Relationship where
  trust : ℤ
  affinity : ℤ
  historyLen : ℕ
  type : String
deriving Repr, DecidableEq

/-- Embedding of `update_relationship`
(`character-interactions.py` lines 314-358) on an existing record: apply
the trust/affinity deltas, append one history entry, then recompute the
stored `type` from the chain above. -/
def update_relationship (rel : Relationship) (dtrust daffinity : ℤ) : Relationship :=
  let trust := rel.trust + dtrust
  let affinity := rel.affinity + daffinity
  let historyLen := rel.historyLen + 1
  { trust := trust, affinity := affinity, historyLen := historyLen,
    type := relationshipType trust affinity historyLen }

/-- Money ledger of `CharacterInteractionSystem.agents`: agent id to money. -/
abbrev MoneyMap := List (String × ℚ)

/-- One guarded money mutation of `apply_interaction_effects`: when the id
is present in the agents table, its money is shifted by `delta`
(`if giver in self.agents: ... money ... - amount`, and symmetrically for
the receiver).  Ids absent from the table are left untouched. -/
def bumpMoney (agents : MoneyMap) (who : String) (delta : ℚ) : MoneyMap :=
  if agents.any (fun p => p.1 = who) then
    agents.map (fun p => if p.1 = who then (p.1, p.2 + delta) else p)
  else agents

/-- Embedding of the resource-exchange step of `apply_interaction_effects`
(`character-interactions.py` lines 292-301): the giver's money is
decremented and the receiver's incremented by the exchange amount carried
in the interaction dict, with no clamp and no check against the giver's
balance. -/
def applyResourceExchange (agents : MoneyMap) (giver receiver : String) (amount : ℚ) : MoneyMap :=
  bumpMoney (bumpMoney agents giver (-amount)) receiver amount

/-- Money lookup in the ledger. -/
def lookupMoney (agents : MoneyMap) (who : String) : Option ℚ :=
  (agents.find? (fun p => p.1 = who)).map Prod.snd

/- ------------------------------------------------------------------ -/
/- World registry (`persistent-world-state.py`)                        -/
/- ------------------------------------------------------------------ -/

/-- World occupancy state of `PersistentWorld`: location name to occupant
list (`self.state['locations'][loc]['occupants']`). -/
structure PWorld where
  locations : List (String × List String)
deriving Repr, DecidableEq

/-- Embedding of `PersistentWorld.update_location`
(`persistent-world-state.py` lines 74-84): remove the character from the
source occupancy when the source is a known location and the character is
present, append it to the destination occupancy when the destination is a
known location, and return normally in every case — no error is raised for
an unknown endpoint.  Falsy (`None`/empty) endpoints are modelled by
`Option.none`. -/
def update_location (w : PWorld) (character : String) (fromLoc toLoc : Option String) : PWorld :=
  let w1 : PWorld :=
    match fromLoc with
    | some f =>
        ⟨w.locations.map fun p =>
          if p.1 = f ∧ character ∈ p.2 then (p.1, p.2.erase character) else p⟩
    | none => w
  match toLoc with
  | some t => ⟨w1.locations.map fun p => if p.1 = t then (p.1, p.2 ++ [character]) else p⟩
  | none => w1

/-- Embedding of the move fragment of `StatefulNarrative.process_action`
(`persistent-world-state.py` lines 272-275): when the decision carries a
truthy `move_to`, the occupancy is updated via `update_location` and the
character's `location` field is set to the destination — whether or not the
destination exists in the registry.  Returns the updated world and the
character's `location` field after the move. -/
def process_action_move (w : PWorld) (charLocation character : String)
    (moveTo : Option String) : PWorld × String :=
  match moveTo with
  | some dest => (update_location w character (some charLocation) (some dest), dest)
  | none => (w, charLocation)

/- ------------------------------------------------------------------ -/
/- Memory lists                                                        -/
/- ------------------------------------------------------------------ -/

/-- Embedding of `PersistentCharacter.remember`
(`persistent-world-state.py` lines 164-171): append the entry (the
timestamp prefix is part of the entry string here), then `pop(0)` the
oldest entry when the cap of 30 is exceeded. -/
def remember (memories : List String) (entry : String) : List String :=
  let ms := memories ++ [entry]
  if 30 < ms.length then ms.drop 1 else ms

/-- Embedding of the persisted copy written by `save_memories`
(`execute-simulation-turn.py` lines 242-252): `memories[-30:]`, i.e. the
last 30 entries. -/
def savedMemories (memories : List String) : List String :=
  memories.drop (memories.length - 30)

/-- Embedding of the in-run memory append of `execute_turn`
(`execute-simulation-turn.py` line 744): a plain `list.append`, with no
trimming of the in-memory list. -/
def executeTurnRemember (memories : List String) (entry : String) : List String :=
  memories ++ [entry]

/- ------------------------------------------------------------------ -/
/- Decision providers (`execute-simulation-turn.py`)                   -/
/- ------------------------------------------------------------------ -/

/-- Outcome of the external Bedrock call and reply parse attempted inside
the `try` block of `get_ai_decision`: a decision extracted from the reply,
a reply in which the JSON regex found no match, or an exception (transport
failure, timeout, unparseable body). -/
inductive BedrockOutcome where
  | ok (d : Decision)
  | noJsonMatch
  | exn (msg : String)
deriving Repr, DecidableEq

/-- Embedding of `get_simulated_decision`
(`execute-simulation-turn.py` lines 393-452).  After four side-effect-free
profile reads, the first executed statement is `if tier == 'poor':`, but the
local name `tier` is never assigned anywhere in the function (unlike
`execute_action`, which derives it from `money`), so every call raises
`NameError` before reaching any branch of the decision table; the whole
table below that line is dead code, which is why this embedding is the
error value alone. -/
def get_simulated_decision (_agent : Agent) : Except String Decision :=
  Except.error "NameError: name 'tier' is not defined"

/-- Embedding of `get_ai_decision` (`execute-simulation-turn.py` lines
323-391): without `use_bedrock` it delegates to the simulated provider
outside any `try`; with it, a parsed reply is returned as the decision, a
reply without a JSON object yields the literal `wait` decision, and any
exception raised inside the `try` block is caught and delegated to the
simulated provider. -/
def get_ai_decision (useBedrock : Bool) (agent : Agent) (outcome : BedrockOutcome) :
    Except String Decision :=
  if useBedrock = false then get_simulated_decision agent
  else
    match outcome with
    | .ok d => .ok d
    | .noJsonMatch =>
        .ok { action := "wait", reasoning := "Could not parse AI response",
              emotion := "confused", urgency := "low" }
    | .exn _ => get_simulated_decision agent

/- ------------------------------------------------------------------ -/
/- Perception                                                          -/
/- ------------------------------------------------------------------ -/

/-- Location record fields read by the perception functions
(`resources`, `atmosphere`, `security_level` keys of the location dicts in
`initialize_world_state`). -/
structure LocationData where
  resources : List String
  atmosphere : String
  securityLevel : Option String
deriving Repr, DecidableEq

/-- World snapshot fields read by `get_agent_perception`: the location
table and the weather flag. -/
structure WorldState where
  locations : List (String × LocationData)
  weather : String
deriving Repr, DecidableEq

/-- Dictionary lookup `self.world_state['locations'].get(location, {})`:
a missing location yields the empty record. -/
def lookupLoc (w : WorldState) (loc : String) : LocationData :=
  ((w.locations.find? fun p => p.1 = loc).map Prod.snd).getD ⟨[], "", none⟩

/-- Embedding of `identify_threats` (`execute-simulation-turn.py` lines
290-306), preserving the append order of the source. -/
def identify_threats (agent : Agent) (ld : LocationData) : List String :=
  (if ld.securityLevel = some "high" then ["security_watching"] else []) ++
  (if agent.needs.hunger > 80 then ["starvation_imminent"] else []) ++
  (if agent.needs.exhaustion > 90 then ["collapse_risk"] else []) ++
  (if agent.money < 20 then ["cannot_afford_food"] else [])

/-- Embedding of `identify_opportunities` (`execute-simulation-turn.py`
lines 308-321); the `agent` parameter of the source is unused there. -/
def identify_opportunities (_agent : Agent) (ld : LocationData) : List String :=
  (if "wifi" ∈ ld.resources then ["submit_gig_work"] else []) ++
  (if "free_food" ∈ ld.resources then ["get_food"] else []) ++
  (if "water_fountain" ∈ ld.resources then ["drink_water"] else [])

/-- The perception record assembled by `get_agent_perception`. -/
structure Perception where
  location : String
  locationData : LocationData
  othersPresent : List String
  time : String
  weather : String
  myMoney : ℚ
  myHunger : ℤ
  myExhaustion : ℤ
  myStress : ℤ
  myInventory : List String
  threats : List String
  opportunities : List String
deriving Repr, DecidableEq

/-- Embedding of `get_agent_perception` (`execute-simulation-turn.py`
lines 254-288).  Inputs are exactly the snapshot data the method reads:
the agent, the world state, the agents table (for co-located ids), and the
formatted world time string.  The body only reads; it contains no
assignment to `self` or to any argument. -/
def get_agent_perception (agentId : String) (agent : Agent) (w : WorldState)
    (agents : List (String × Agent)) (worldTime : String) : Perception :=
  let location := agent.location
  let locationData := lookupLoc w location
  let othersHere :=
    (agents.filter fun p => p.2.location = location ∧ p.1 ≠ agentId).map Prod.fst
  { location := location
    locationData := locationData
    othersPresent := othersHere
    time := worldTime
    weather := w.weather
    myMoney := agent.money
    myHunger := agent.needs.hunger
    myExhaustion := agent.needs.exhaustion
    myStress := agent.needs.stress
    myInventory := agent.inventory
    threats := if agent.money < 100 then identify_threats agent locationData else []
    opportunities :=
      if agent.money < 100 then identify_opportunities agent locationData
      else ["everything_available"] }

/-- Method-call view of `get_agent_perception`: the call returns its value
together with the (unchanged) agent and world, making the absence of
mutation explicit in the embedding. -/
def get_agent_perception_call (agentId : String) (agent : Agent) (w : WorldState)
    (agents : List (String × Agent)) (worldTime : String) :
    Perception × Agent × WorldState :=
  (get_agent_perception agentId agent w agents worldTime, agent, w)

/-- Embedding of `WorldPerception.generate_perception_data`
(`world-perception-system.py` lines 24-39).  The returned dict literal
evaluates `datetime.now().isoformat()` and the two helpers that exist
(`get_immediate_view`, `get_visible_characters`), then calls
`self.get_interactable_objects` — which is defined nowhere in the class
(nor are `get_ambient_conditions`, `get_social_cues`,
`get_available_actions`) — so every call raises `AttributeError` before
the record is completed.  The prior evaluations are side-effect-free, so
the call's semantics is the error value alone. -/
def generate_perception_data (_now _characterId _location _economicTier : String) :
    Except String Unit :=
  Except.error
    "AttributeError: 'WorldPerception' object has no attribute 'get_interactable_objects'"

/- ------------------------------------------------------------------ -/
/- Concrete fixtures (from the default seed profiles in the sources)   -/
/- ------------------------------------------------------------------ -/

/-- The `alex_chen` default profile of `get_default_agents`
(`execute-simulation-turn.py` lines 160-172). -/
def alexChen : Agent :=
  { money := 5309/100,
    needs := { hunger := 75, exhaustion := 85, stress := 90 },
    location := "public_library",
    inventory := ["old_laptop", "water_bottle"],
    memories := [] }

/-- The scenario agent of claim C6: `money = 47`, `hunger = 85`. -/
def c6Agent : Agent :=
  { money := 47,
    needs := { hunger := 85, exhaustion := 70, stress := 75 },
    location := "coffee_shop",
    inventory := [],
    memories := [] }

/-- A hungry-poor survival decision in the shape of the fallback table. -/
def searchFoodDecision : Decision :=
  { action := "search_for_food", reasoning := "Desperately hungry, need food now",
    emotion := "desperate", urgency := "immediate" }

/-- A two-location world with `alex_chen` in the library, used to exercise
moves toward unregistered destinations. -/
def libraryWorld : PWorld :=
  ⟨[("library", ["alex_chen"]), ("coffee_shop", [])]⟩

set_option maxHeartbeats 2000000 in
lemma core_preserves_needs (a : Agent) (act tier : String) (h : needsInRange a.needs) :
    needsInRange (executeActionCore a act tier).1.needs := by
  unfold executeActionCore
  repeat' split
  all_goals (unfold needsInRange at *; try dsimp only at *)
  all_goals omega

lemma urgency_preserves_needs (a : Agent) (urgency : String) (h : needsInRange a.needs) :
    needsInRange (applyUrgencyStress a urgency).needs := by
  unfold applyUrgencyStress
  repeat' split
  all_goals (unfold needsInRange at *; try dsimp only at *)
  all_goals omega

lemma drift_preserves_needs (a : Agent) (tier : String) (h : needsInRange a.needs) :
    needsInRange (applyTierDrift a tier).needs := by
  unfold applyTierDrift
  repeat' split
  all_goals (unfold needsInRange at *; try dsimp only at *)
  all_goals omega

lemma updateNeeds_preserves_needs (a : Agent) (h : needsInRange a.needs) :
    needsInRange (updateNeeds a).needs := by
  unfold updateNeeds
  repeat' split
  all_goals (unfold needsInRange at *; try dsimp only at *)
  all_goals omega

lemma executeAction_preserves_needs (a : Agent) (d : Decision) (h : needsInRange a.needs) :
    needsInRange (executeAction a d).1.needs := by
  unfold executeAction
  exact drift_preserves_needs _ _ (urgency_preserves_needs _ _ (core_preserves_needs a d.action _ h))

lemma urgency_money (a : Agent) (urgency : String) :
    (applyUrgencyStress a urgency).money = a.money := by
  unfold applyUrgencyStress; repeat' split
  all_goals rfl

lemma drift_money (a : Agent) (tier : String) :
    (applyTierDrift a tier).money = a.money := by
  unfold applyTierDrift; repeat' split
  all_goals rfl

lemma urgency_location (a : Agent) (urgency : String) :
    (applyUrgencyStress a urgency).location = a.location := by
  unfold applyUrgencyStress; repeat' split
  all_goals rfl

lemma drift_location (a : Agent) (tier : String) :
    (applyTierDrift a tier).location = a.location := by
  unfold applyTierDrift; repeat' split
  all_goals rfl

lemma tierOf_eq_ultra (m : ℚ) (h : 1000000 ≤ m) : tierOf m = "ultra_wealthy" := by
  unfold tierOf; rw [if_pos (by linarith)]

lemma tierOf_eq_wealthy (m : ℚ) (h1 : m < 1000000) (h2 : 10000 ≤ m) : tierOf m = "wealthy" := by
  unfold tierOf; rw [if_neg (by linarith), if_pos (by linarith)]

lemma tierOf_eq_middle (m : ℚ) (h1 : m < 10000) (h2 : 1000 ≤ m) : tierOf m = "middle" := by
  unfold tierOf; rw [if_neg (by linarith), if_neg (by linarith), if_pos (by linarith)]

lemma tierOf_eq_poor (m : ℚ) (h1 : m < 1000) : tierOf m = "poor" := by
  unfold tierOf; rw [if_neg (by linarith), if_neg (by linarith), if_neg (by linarith)]

set_option maxHeartbeats 2000000 in
lemma core_money_nonneg (a : Agent) (act : String) (h : 0 ≤ a.money) :
    0 ≤ (executeActionCore a act (tierOf a.money)).1.money := by
  rcases le_or_lt 1000000 a.money with h1 | h1
  · rw [tierOf_eq_ultra _ h1]
    simp only [executeActionCore, String.reduceEq, reduceIte, or_self, false_or, or_false,
      or_true, true_or, ite_true, ite_false]
    repeat' split
    all_goals (dsimp only at *; linarith)
  rcases le_or_lt 10000 a.money with h2 | h2
  · rw [tierOf_eq_wealthy _ h1 h2]
    simp only [executeActionCore, String.reduceEq, reduceIte, or_self, false_or, or_false,
      or_true, true_or, ite_true, ite_false]
    repeat' split
    all_goals (dsimp only at *; linarith)
  rcases le_or_lt 1000 a.money with h3 | h3
  · rw [tierOf_eq_middle _ h2 h3]
    simp only [executeActionCore, String.reduceEq, reduceIte, or_self, false_or, or_false,
      or_true, true_or, ite_true, ite_false]
    repeat' split
    all_goals (dsimp only at *; linarith)
  · rw [tierOf_eq_poor _ h3]
    simp only [executeActionCore, String.reduceEq, reduceIte, or_self, false_or, or_false,
      or_true, true_or, ite_true, ite_false]
    repeat' split
    all_goals (dsimp only at *; linarith)

lemma executeAction_money_nonneg (a : Agent) (d : Decision) (h : 0 ≤ a.money) :
    0 ≤ (executeAction a d).1.money := by
  unfold executeAction
  dsimp only
  rw [drift_money, urgency_money]
  exact core_money_nonneg a d.action h

set_option maxHeartbeats 2000000 in
lemma core_location (a : Agent) (act tier : String) :
    (executeActionCore a act tier).1.location =
      (if tier = "poor" ∧ foodAction act = true ∧ ¬a.money ≥ 5 then "food_bank"
       else a.location) := by
  unfold executeActionCore
  repeat' split
  all_goals (try dsimp only at *; try rfl)
  all_goals simp_all


/- ------------------------------------------------------------------ -/
/- Supporting lemmas for the claim theorems                            -/
/- ------------------------------------------------------------------ -/

lemma list_map_eq_self {α : Type} (l : List α) (g : α → α) (h : ∀ x ∈ l, g x = x) :
    l.map g = l := by
  induction l with
  | nil => rfl
  | cons x xs ih =>
      have hx := h x (List.mem_cons_self x xs)
      have hxs := ih fun y hy => h y (List.mem_cons_of_mem x hy)
      simp [hx, hxs]

lemma bumpMoney_nonneg (agents : MoneyMap) (who : String) (delta : ℚ)
    (hall : ∀ q ∈ agents, 0 ≤ q.2)
    (hdelta : ∀ q ∈ agents, q.1 = who → 0 ≤ q.2 + delta) :
    ∀ p ∈ bumpMoney agents who delta, 0 ≤ p.2 := by
  intro p hp
  unfold bumpMoney at hp
  split at hp
  · obtain ⟨q, hq, rfl⟩ := List.mem_map.mp hp
    by_cases hw : q.1 = who
    · simpa [hw] using hdelta q hq hw
    · simpa [hw] using hall q hq
  · exact hall p hp

lemma exchange_nonneg (agents : MoneyMap) (giver receiver : String) (amount : ℚ)
    (h0 : 0 ≤ amount)
    (hg : ∀ q ∈ agents, q.1 = giver → amount ≤ q.2)
    (hall : ∀ q ∈ agents, 0 ≤ q.2) :
    ∀ p ∈ applyResourceExchange agents giver receiver amount, 0 ≤ p.2 := by
  have h1 : ∀ q ∈ bumpMoney agents giver (-amount), 0 ≤ q.2 :=
    bumpMoney_nonneg agents giver (-amount) hall
      (fun q hq hw => by have := hg q hq hw; linarith)
  intro p hp
  unfold applyResourceExchange at hp
  exact bumpMoney_nonneg _ receiver amount h1 (fun q hq _ => by have := h1 q hq; linarith) p hp

lemma relationshipType_ne_enemy (t a : ℤ) (h : ℕ) :
    (relationshipType t a h == "enemy") = false := by
  unfold relationshipType
  repeat' split
  all_goals (first | rfl | (exfalso; simp_all; omega))

/- ------------------------------------------------------------------ -/
/- Claim theorems                                                      -/
/- ------------------------------------------------------------------ -/

/-- Claim C1 (code evaluation at the failing input): when the external
inference call raises, `get_ai_decision` reaches its `except` handler and
calls `get_simulated_decision` — which itself raises `NameError` at its
first branch test because the local `tier` is never assigned — so the turn
does not complete with a fallback decision: the error propagates out of
`get_ai_decision`, and `execute_turn` calls it with no handler. -/
theorem inference_failure_raises (agent : Agent) (msg : String) :
    get_ai_decision true agent (BedrockOutcome.exn msg) =
      Except.error "NameError: name 'tier' is not defined" := rfl

/-- Claim C2: for every agent whose need fields start in `[0,100]`, after a
single `execute_action` call (urgency-based stress adjustment and
tier-based passive drift included) and after the subsequent `update_needs`
call, every need field stays in `[0,100]`. -/
theorem resolver_keeps_needs_in_range (a : Agent) (d : Decision) (h : needsInRange a.needs) :
    needsInRange (executeAction a d).1.needs ∧
    needsInRange (updateNeeds (executeAction a d).1).needs :=
  ⟨executeAction_preserves_needs a d h,
   updateNeeds_preserves_needs _ (executeAction_preserves_needs a d h)⟩

/-- Witness for C2 at the `alex_chen` seed profile with a concrete
food-seeking decision. -/
theorem resolver_keeps_needs_in_range_witness :
    needsInRange alexChen.needs ∧
    (needsInRange (executeAction alexChen searchFoodDecision).1.needs ∧
     needsInRange (updateNeeds (executeAction alexChen searchFoodDecision).1).needs) :=
  ⟨by decide, resolver_keeps_needs_in_range alexChen searchFoodDecision (by decide)⟩

/-- Counterexample to claim C3 as stated: starting from nonnegative
balances, the resource-exchange step of `apply_interaction_effects` with an
interaction dict whose `amount` (10) exceeds the giver's balance (3) drives
the giver's money to `-7 < 0` — the code clamps nothing. -/
theorem money_nonneg_counterexample :
    lookupMoney (applyResourceExchange [("alex_chen", 3), ("jamie_rodriguez", 50)]
        "alex_chen" "jamie_rodriguez" 10) "alex_chen" = some (-7) ∧
    ((-7 : ℚ) < 0) := by
  constructor
  · have e1 : applyResourceExchange [("alex_chen", 3), ("jamie_rodriguez", 50)]
        "alex_chen" "jamie_rodriguez" 10 =
        [("alex_chen", -7), ("jamie_rodriguez", 60)] := by
      unfold applyResourceExchange bumpMoney
      simp
      norm_num
    rw [e1]
    rfl
  · norm_num

/-- Claim C3 (amended): money stays nonnegative across every
`execute_action` call; the encounter resource exchange preserves
nonnegativity when the exchanged amount is nonnegative and bounded by the
giver's balance (as the fallback `resource_sharing` amount
`min(5, giver_money)` always is), while an interaction dict carrying a
larger amount drives the giver negative as the counterexample shows. -/
theorem money_nonneg_amended (a : Agent) (d : Decision) (ha : 0 ≤ a.money)
    (agents : MoneyMap) (giver receiver : String) (amount : ℚ)
    (h0 : 0 ≤ amount)
    (hg : ∀ q ∈ agents, q.1 = giver → amount ≤ q.2)
    (hall : ∀ q ∈ agents, 0 ≤ q.2) :
    0 ≤ (executeAction a d).1.money ∧
    ∀ p ∈ applyResourceExchange agents giver receiver amount, 0 ≤ p.2 :=
  ⟨executeAction_money_nonneg a d ha, exchange_nonneg agents giver receiver amount h0 hg hall⟩

/-- Witness for the amended C3 at a concrete ledger and the fallback-shaped
amount `min(5, 3) = 3`. -/
theorem money_nonneg_amended_witness :
    0 ≤ (executeAction c6Agent searchFoodDecision).1.money ∧
    ∀ p ∈ applyResourceExchange [("alex_chen", 3), ("jamie_rodriguez", 50)]
        "alex_chen" "jamie_rodriguez" 3, 0 ≤ p.2 :=
  money_nonneg_amended c6Agent searchFoodDecision (by decide)
    [("alex_chen", 3), ("jamie_rodriguez", 50)] "alex_chen" "jamie_rodriguez" 3
    (by decide) (by decide) (by decide)

/-- Counterexample to claim C4 as stated: moving `alex_chen` from the
library to the unregistered id `atlantis` raises nothing (the move is a
total function in the source: no exception statement exists on that path)
and leaves the agent's `location` field equal to `atlantis` — changed, not
unchanged. -/
theorem move_unknown_counterexample :
    (process_action_move libraryWorld "library" "alex_chen" (some "atlantis")).2 = "atlantis" ∧
    (process_action_move libraryWorld "library" "alex_chen" (some "atlantis")).2 ≠ "library" := by
  decide

/-- Claim C4 (amended): for a destination id absent from the registry,
`update_location` raises no error and silently skips the destination
append — the resulting world is exactly the source-removal step alone —
while `process_action` still sets the agent's `location` field to the
nonexistent destination id. -/
theorem move_unknown_amended (w : PWorld) (l c d : String)
    (hd : ∀ p ∈ w.locations, p.1 ≠ d) :
    (process_action_move w l c (some d)).1 = update_location w c (some l) none ∧
    (process_action_move w l c (some d)).2 = d := by
  refine ⟨?_, rfl⟩
  show update_location w c (some l) (some d) = update_location w c (some l) none
  unfold update_location
  dsimp only
  congr 1
  apply list_map_eq_self
  intro q hq
  obtain ⟨p, hp, rfl⟩ := List.mem_map.mp hq
  have hkey : (if p.1 = l ∧ c ∈ p.2 then (p.1, p.2.erase c) else p).1 = p.1 := by
    split <;> rfl
  rw [if_neg]
  rw [hkey]
  exact hd p hp

/-- Witness for the amended C4: the concrete library world and the unknown
destination `atlantis`. -/
theorem move_unknown_amended_witness :
    (process_action_move libraryWorld "library" "alex_chen" (some "atlantis")).1 =
      update_location libraryWorld "alex_chen" (some "library") none ∧
    (process_action_move libraryWorld "library" "alex_chen" (some "atlantis")).2 = "atlantis" :=
  move_unknown_amended libraryWorld "library" "alex_chen" "atlantis" (by decide)

/-- Counterexample to claim C5 as stated: for two co-located agents with
money 47 and 43 (both `< 100`), `determine_interaction_type` draws from a
four-element candidate list; the draw with index 1 returns
`resource_sharing`, not `solidarity`, so the classification is not
deterministically `solidarity` on every invocation. -/
theorem solidarity_counterexample :
    determine_interaction_type 47 43 "public_library" 1 = "resource_sharing" ∧
    determine_interaction_type 47 43 "public_library" 1 ≠ "solidarity" := by
  have h : determine_interaction_type 47 43 "public_library" 1 = "resource_sharing" := by
    unfold determine_interaction_type
    rw [if_neg (not_lt.mpr (abs_le.mpr ⟨by norm_num, by norm_num⟩)),
        if_pos ⟨by norm_num, by norm_num⟩]
    decide
  exact ⟨h, by rw [h]; decide⟩

/-- Claim C5 (amended): with both balances in `[0,100)` the classifier of
`simulate_character_interaction` returns `solidarity` deterministically and
symmetrically; `determine_interaction_type` instead returns a member of the
four-element both-struggling candidate list — `solidarity` only for some
draws — and that candidate set is independent of argument order. -/
theorem solidarity_amended (m1 m2 : ℚ) (loc : String) (pick : ℕ)
    (h1 : 0 ≤ m1) (h2 : m1 < 100) (h3 : 0 ≤ m2) (h4 : m2 < 100) :
    mcpInteractionType m1 m2 = "solidarity" ∧
    mcpInteractionType m2 m1 = "solidarity" ∧
    determine_interaction_type m1 m2 loc pick ∈
      ["solidarity", "resource_sharing", "commiseration", "collaboration"] ∧
    determine_interaction_type m2 m1 loc pick ∈
      ["solidarity", "resource_sharing", "commiseration", "collaboration"] := by
  have habs12 : ¬(10000 < |m1 - m2|) :=
    not_lt.mpr (abs_le.mpr ⟨by linarith, by linarith⟩)
  have habs21 : ¬(10000 < |m2 - m1|) :=
    not_lt.mpr (abs_le.mpr ⟨by linarith, by linarith⟩)
  have hmod : pick % 4 = 0 ∨ pick % 4 = 1 ∨ pick % 4 = 2 ∨ pick % 4 = 3 := by omega
  refine ⟨?_, ?_, ?_, ?_⟩
  · unfold mcpInteractionType
    rw [if_pos ⟨h2, h4⟩]
  · unfold mcpInteractionType
    rw [if_pos ⟨h4, h2⟩]
  · unfold determine_interaction_type
    rw [if_neg habs12, if_pos ⟨h2, h4⟩]
    rcases hmod with h | h | h | h <;> simp [h]
  · unfold determine_interaction_type
    rw [if_neg habs21, if_pos ⟨h4, h2⟩]
    rcases hmod with h | h | h | h <;> simp [h]

/-- Witness for the amended C5 at money 47 and 43 with draw index 1. -/
theorem solidarity_amended_witness :
    mcpInteractionType 47 43 = "solidarity" ∧
    mcpInteractionType 43 47 = "solidarity" ∧
    determine_interaction_type 47 43 "public_library" 1 ∈
      ["solidarity", "resource_sharing", "commiseration", "collaboration"] ∧
    determine_interaction_type 43 47 "public_library" 1 ∈
      ["solidarity", "resource_sharing", "commiseration", "collaboration"] :=
  solidarity_amended 47 43 "public_library" 1 (by decide) (by decide) (by decide) (by decide)

/-- Claim C6 (code evaluation at the failing input): at the scenario state
`money = 47`, `hunger = 85`, the deterministic fallback provider of
`execute-simulation-turn.py` does not return a food-seeking decision — it
raises `NameError` (undefined local `tier`) before it can reach the
`poor ∧ hunger > 80 → search_for_food / immediate` branch that would match
the claim. -/
theorem hungry_poor_fallback_raises :
    get_simulated_decision c6Agent =
      Except.error "NameError: name 'tier' is not defined" := rfl

/-- Claim C7 (code evaluation): the stored relationship type is never
`enemy`: the `adversary` test (`trust < -30 or affinity < -30`) precedes
and subsumes the `enemy` test (`trust < -50 and affinity < -50`), so that
branch is unreachable, and in the claim's example region (trust and
affinity moved to −60) `update_relationship` stores `adversary`. -/
theorem enemy_unreachable :
    (∀ rel dtrust daffinity,
      ((update_relationship rel dtrust daffinity).type == "enemy") = false) ∧
    (update_relationship ⟨-50, -50, 5, "adversary"⟩ (-10) (-10)).type = "adversary" := by
  refine ⟨?_, by decide⟩
  intro rel dt da
  unfold update_relationship
  exact relationshipType_ne_enemy _ _ _

/-- Counterexample to claim C8 as stated: an agent holding 30 memories (the
cap) gets a 31st entry appended by `execute_turn`, which never trims the
in-memory list — only the persisted copy is truncated — so the in-memory
list used during the run exceeds the cap. -/
theorem memory_cap_counterexample :
    (executeTurnRemember (List.replicate 30 "m") "x").length = 31 := by
  simp [executeTurnRemember]

/-- Claim C8 (amended): `PersistentCharacter.remember` keeps its list within
the cap of 30, evicting the oldest entry first, and the persisted copy
written by `save_memories` never exceeds 30 entries; the in-memory list
appended by `execute_turn` is, however, unbounded. -/
theorem memory_cap_amended (ms : List String) (e : String) (h : ms.length ≤ 30) :
    (remember ms e).length ≤ 30 ∧
    (savedMemories ms).length ≤ 30 ∧
    (ms.length = 30 → remember ms e = ms.drop 1 ++ [e]) := by
  refine ⟨?_, ?_, ?_⟩
  · unfold remember
    dsimp only
    split
    · simp only [List.length_drop, List.length_append, List.length_cons, List.length_nil]
      omega
    · simp_all only [not_lt, List.length_append, List.length_cons, List.length_nil]
  · unfold savedMemories
    simp only [List.length_drop]
    omega
  · intro h30
    unfold remember
    dsimp only
    rw [if_pos (by simp only [List.length_append, List.length_cons, List.length_nil]; omega)]
    all_goals exact List.drop_append_of_le_length (by omega)

/-- Witness for the amended C8 at a 30-element memory list. -/
theorem memory_cap_amended_witness :
    (remember (List.replicate 30 "m") "x").length ≤ 30 ∧
    (savedMemories (List.replicate 30 "m")).length ≤ 30 ∧
    ((List.replicate 30 "m").length = 30 →
      remember (List.replicate 30 "m") "x" = (List.replicate 30 "m").drop 1 ++ ["x"]) :=
  memory_cap_amended (List.replicate 30 "m") "x" (by simp)

/-- Claim C9 (code evaluation and positive half): `get_agent_perception` is
pure — the method-call view returns the agent and the world unchanged, and
repeating the call on the returned state yields the identical record —
while `WorldPerception.generate_perception_data` raises `AttributeError` on
every call because four of its helper methods are never defined. -/
theorem perception_pure_generate_raises (agentId : String) (a : Agent) (w : WorldState)
    (agents : List (String × Agent)) (t : String) :
    (get_agent_perception_call agentId a w agents t).2.1 = a ∧
    (get_agent_perception_call agentId a w agents t).2.2 = w ∧
    get_agent_perception_call agentId
        (get_agent_perception_call agentId a w agents t).2.1
        (get_agent_perception_call agentId a w agents t).2.2 agents t =
      get_agent_perception_call agentId a w agents t ∧
    generate_perception_data t "alex_chen" "public_library" "poor" =
      Except.error
        "AttributeError: 'WorldPerception' object has no attribute 'get_interactable_objects'" :=
  ⟨rfl, rfl, rfl, rfl⟩

/-- Claim C10: `execute_action` changes the agent's `location` field only
when the agent is poor-tier, the action matches a food keyword, and
`money < 5`, in which case the location becomes `food_bank`; under every
other action/tier combination the location after the call equals its value
before. -/
theorem executeAction_location_frame (a : Agent) (d : Decision) :
    (executeAction a d).1.location =
      (if tierOf a.money = "poor" ∧ foodAction d.action = true ∧ a.money < 5 then "food_bank"
       else a.location) := by
  simp only [executeAction]
  rw [drift_location, urgency_location, core_location]
  exact if_congr
    ⟨fun ⟨h1, h2, h3⟩ => ⟨h1, h2, not_le.mp h3⟩,
     fun ⟨h1, h2, h3⟩ => ⟨h1, h2, not_le.mpr h3⟩⟩ rfl rfl

end AgenticWorld
